import Mathlib

/-!
Verification development for the user-runtime-state service in
src/service/Users.js (class Users).  The service keeps a cache tier
(Redis: string keys to string values) synchronized with a durable tier
(PostgreSQL: tables users, user_settings, user_profiles from
db/createTable.js).  The definitions below are a shallow embedding of the
methods of that class: stateful code becomes explicit state passing over a
State structure, fallible stores become Option results or injected failure
flags, and the JavaScript string primitives used by the service
(String.prototype.trim, String.prototype.toLowerCase) are modelled by
executable functions over the ASCII data this service handles.
-/

/-- Model of the whitespace test used by String.prototype.trim; the
identifiers and usernames handled by the service are ASCII. -/
def isJsSpace (c : Char) : Bool :=
  c == ' ' || c == '\t' || c == '\n' || c == '\r' || c == '\x0b' || c == '\x0c'

/-- Model of String.prototype.trim (both ends, whitespace). -/
def jsTrim (s : String) : String :=
  ⟨((s.data.dropWhile isJsSpace).reverse.dropWhile isJsSpace).reverse⟩

/-- Lowercase one character, ASCII range, as String.prototype.toLowerCase
acts on the ASCII usernames and identifiers handled by the service. -/
def asciiLower (c : Char) : Char :=
  if 'A' ≤ c ∧ c ≤ 'Z' then Char.ofNat (c.toNat + 32) else c

/-- Model of String.prototype.toLowerCase. -/
def jsLower (s : String) : String := ⟨s.data.map asciiLower⟩

namespace Users

/-- Denormalized per-user bundle cached at cud:{uid}
(CriticalUserDataBundle): username, displayName, avatar from the durable
identity row, online and status from the presence resolver. -/
structure Bundle where
  username : String
  displayName : String
  avatar : String
  online : Bool
  status : String
deriving DecidableEq

/-- Value stored in the cache tier.  Redis holds strings; the service
stores either a plain token (uids, usernames, presence modes, the "1"
heartbeat marker) or the JSON serialization of a Bundle.  The two cases
are kept apart as constructors so that JSON.parse can be modelled: the
bundle constructor stands for the JSON text of the bundle, the str
constructor for a plain token (which is not valid JSON, so parsing it
fails). -/
inductive RVal
  | str (s : String)
  | bundle (b : Bundle)
deriving DecidableEq

/-- Redis GET over the association-list model of the cache tier
(first binding wins; rset conses, rdel removes every binding). -/
def rget (r : List (String × RVal)) (k : String) : Option RVal :=
  match r with
  | [] => none
  | p :: rest => if p.1 = k then some p.2 else rget rest k

/-- Redis SET (overwrite; the TTLs the service passes are not modelled,
expiry is never observed inside a single run). -/
def rset (r : List (String × RVal)) (k : String) (v : RVal) : List (String × RVal) :=
  (k, v) :: r

/-- Redis DEL. -/
def rdel (r : List (String × RVal)) (k : String) : List (String × RVal) :=
  match r with
  | [] => []
  | p :: rest => if p.1 = k then rdel rest k else p :: rdel rest k

/-- JavaScript truthiness of a value read from Redis: null and the empty
string are falsy, any other string (including JSON text) is truthy. -/
def rvalTruthy (v : Option RVal) : Bool :=
  match v with
  | none => false
  | some (.str s) => s != ""
  | some (.bundle _) => true

/-- Durable identity row (table users, db/createTable.js), restricted to
the columns the service reads or writes: uid, username_lower,
display_name, avatar_url, last_activity_at.  The remaining schema columns
(public_uid, role, is_new_user, updated_at) are not part of the modelled
projection. -/
structure UserRow where
  uid : String
  username_lower : String
  display_name : String
  avatar_url : String
  last_activity_at : Option Nat
deriving DecidableEq

/-- Durable settings row (table user_settings), restricted to uid and
presence_preference. -/
structure SettingsRow where
  uid : String
  presence_preference : Option String
deriving DecidableEq

/-- Durable tier: the three tables of db/createTable.js.  Profile rows
are modelled by their uid only; the service never reads profile columns
in the claimed operations. -/
structure Db where
  users : List UserRow
  user_settings : List SettingsRow
  user_profiles : List String
deriving DecidableEq

/-- Whole-system state: the cache tier, the durable tier, and the durable
tier's clock NOW() in seconds (used only by the throttled last-activity
write). -/
structure State where
  redis : List (String × RVal)
  db : Db
  now : Nat
deriving DecidableEq

/-- Key builder keyCriticalUserData: cud:{uid}. -/
def keyCriticalUserData (uid : String) : String := "cud:" ++ uid

/-- Key builder keyPresenceSummary: presence:summary:user:{uid}. -/
def keyPresenceSummary (uid : String) : String := "presence:summary:user:" ++ uid

/-- Key builder keyPresenceOverride: presence:override:user:{uid}. -/
def keyPresenceOverride (uid : String) : String := "presence:override:user:" ++ uid

/-- Username normalization: trim then lowercase (Users.normalizeUsername). -/
def normalizeUsername (username : String) : String := jsLower (jsTrim username)

/-- Key builder keyUsernameToUid: username:to:uid:{normalizedUsername};
the builder itself normalizes its argument, as in the source. -/
def keyUsernameToUid (name : String) : String :=
  "username:to:uid:" ++ normalizeUsername name

/-- Key builder keyUidToUsername: uid:to:username:{uid}. -/
def keyUidToUsername (uid : String) : String := "uid:to:username:" ++ uid

/-- Character class of the username policy regex [a-zA-Z0-9._-]. -/
def isUsernameChar (c : Char) : Bool :=
  c.isAlpha || c.isDigit || c == '.' || c == '_' || c == '-'

/-- Users.isUsernameFormatValid: normalize, then length 3..30 and the
policy character class (the regex is anchored on both ends). -/
def isUsernameFormatValid (username : String) : Bool :=
  let u := normalizeUsername username
  if u.data.length < 3 || 30 < u.data.length then false
  else u.data.all isUsernameChar

/-- Users.redisGetJson: GET then JSON.parse.  A stored bundle parses to
itself; the plain tokens the service stores at other keys are not valid
JSON, so parsing them returns null (the numeric heartbeat marker "1"
would parse, but redisGetJson is only ever applied to cud keys, where the
service writes only bundle JSON). -/
def redisGetJson (r : List (String × RVal)) (k : String) : Option Bundle :=
  match rget r k with
  | some (.bundle b) => some b
  | some (.str _) => none
  | none => none

/-- Presence value {online, status} computed by the presence resolver. -/
structure PresenceState where
  online : Bool
  status : String
deriving DecidableEq

/-- Users.getOnlineStatus (src/service/Users.js lines 297-318).  The
first statement of the try block reads the bare identifier validateInputs
(line 299) instead of this.validateInputs; no module-level binding with
that name exists in service/Users.js, so evaluating the method throws a
ReferenceError on every call, and the catch handler returns
{online:false, status:"offline"}.  The override and summary keys are
therefore never read on this path, and the result is offline for every
input and every store state. -/
def getOnlineStatus (_st : State) (_uid : String) : PresenceState :=
  ⟨false, "offline"⟩

/-- Per-user presence row produced by the batch presence loop. -/
structure PresenceRow where
  uid : String
  online : Bool
  status : String
deriving DecidableEq

/-- Loop body of Users.getBatchOnlineStatus (lines 343-361): override
"offline" wins, then override "away", then truthiness of the heartbeat
summary value. -/
def presenceRowOf (st : State) (uid : String) : PresenceRow :=
  if rget st.redis (keyPresenceOverride uid) = some (.str "offline") then ⟨uid, false, "offline"⟩
  else if rget st.redis (keyPresenceOverride uid) = some (.str "away") then ⟨uid, true, "away"⟩
  else if rvalTruthy (rget st.redis (keyPresenceSummary uid)) then ⟨uid, true, "online"⟩
  else ⟨uid, false, "offline"⟩

/-- Result of Users.getBatchOnlineStatus: the row list on success, or the
catch handler's {success:false, data:[], error} object. -/
inductive BatchPresenceResult
  | rows (l : List PresenceRow)
  | failure
deriving DecidableEq

/-- Users.getBatchOnlineStatus (lines 325-370).  validateInputs checks
the argument is an array of length 1..500 (SafeUtils.sanitizeValidate is
not under src/; the min and max bounds follow its rules object and spec
section 7); the elements are not validated.  The two multi-gets and the
loop are cache reads only. -/
def getBatchOnlineStatus (st : State) (uids : List String) : BatchPresenceResult :=
  if uids.length < 1 ∨ 500 < uids.length then .failure
  else .rows (uids.map (fun u => presenceRowOf st u))

/-- First row of the users table with the given uid (SELECT ... WHERE
uid = $1 LIMIT 1; uid is the primary key). -/
def findUserRow (d : Db) (uid : String) : Option UserRow :=
  d.users.find? (fun r => r.uid == uid)

/-- Result of Users.getCriticalUserData: a bundle, JavaScript null (no
durable row), or the catch handler's {status:false, data:null,
error:message} object. -/
inductive CudResult
  | bundle (b : Bundle)
  | nullResult
  | errorResult
deriving DecidableEq

/-- Users.getCriticalUserData (lines 154-225).  Validation trims the uid
and requires it non-empty (validation failure lands in the catch
handler).  On a cache hit the cached bundle is returned with online and
status overwritten from getOnlineStatus.  On a miss with no durable row
the result is null.  On a miss with a durable row, the code builds the
hydrated bundle and then calls the bare identifier redisSetJson
(line 203) instead of this.redisSetJson; no module-level binding with
that name exists, so a ReferenceError is thrown, the catch handler
returns the error object, and neither the cache write nor the return of
the hydrated bundle happens.  No path mutates either store. -/
def getCriticalUserData (st : State) (uid : String) : CudResult × State :=
  let vUid := jsTrim uid
  if vUid = "" then (.errorResult, st)
  else
    let cud := redisGetJson st.redis (keyCriticalUserData vUid)
    let presence := getOnlineStatus st vUid
    match cud with
    | some b => (.bundle {b with online := presence.online, status := presence.status}, st)
    | none =>
      match findUserRow st.db vUid with
      | none => (.nullResult, st)
      | some _ => (.errorResult, st)

/-- Shape of one element of the batch bundle result after the JavaScript
spread: a parsed cache hit, a truthy bundle from the single-item call, the
empty-shaped placeholder (one falsy), or the spread of the single-item
call's error object. -/
inductive CudPayload
  | cached (b : Bundle)
  | hydrated (b : Bundle)
  | emptyShape
  | errorShape
deriving DecidableEq

/-- One element of the Users.getCriticalUsersData result list: the uid
property plus the spread payload. -/
structure BatchCudRow where
  uid : String
  payload : CudPayload
deriving DecidableEq

/-- Spread {uid, ...(one || placeholder)} over the single-item result. -/
def spreadRow (uid : String) (res : CudResult) : BatchCudRow :=
  match res with
  | .bundle b => ⟨uid, .hydrated b⟩
  | .nullResult => ⟨uid, .emptyShape⟩
  | .errorResult => ⟨uid, .errorShape⟩

/-- First loop of Users.getCriticalUsersData (lines 245-258): walk the
multi-get results in input order; a parseable hit is pushed to results, a
null or unparseable value sends the uid to the miss list. -/
def cudPhase1 (st : State) : List String → List BatchCudRow × List String
  | [] => ([], [])
  | uid :: rest =>
    let pr := cudPhase1 st rest
    match rget st.redis (keyCriticalUserData uid) with
    | some (.bundle b) => (⟨uid, .cached b⟩ :: pr.1, pr.2)
    | some (.str _) => (pr.1, uid :: pr.2)
    | none => (pr.1, uid :: pr.2)

/-- Second loop of Users.getCriticalUsersData (lines 261-273): hydrate
each miss through the single-item call, threading the store state, and
push the spread row. -/
def cudPhase2 (st : State) : List String → List BatchCudRow × State
  | [] => ([], st)
  | uid :: rest =>
    let one := getCriticalUserData st uid
    let tail := cudPhase2 one.2 rest
    (spreadRow uid one.1 :: tail.1, tail.2)

/-- Lookup in the Map built from results (lines 276-277): the Map
constructor keeps the last entry for a duplicated key, and map.get
returns undefined (modelled none) when the key is absent. -/
def lookupLast (rows : List BatchCudRow) (u : String) : Option BatchCudRow :=
  match rows with
  | [] => none
  | r :: rest =>
    match lookupLast rest u with
    | some x => some x
    | none => if r.uid = u then some r else none

/-- Users.getCriticalUsersData (lines 232-285).  Validation requires an
array of length 1..200; on validation failure the catch handler returns
the empty array.  Output is input-order, one Map lookup per input uid
(undefined, i.e. none, if the uid never reached results). -/
def getCriticalUsersData (st : State) (uids : List String) :
    List (Option BatchCudRow) × State :=
  if uids.length < 1 ∨ 200 < uids.length then ([], st)
  else
    let p1 := cudPhase1 st uids
    let p2 := cudPhase2 st p1.2
    let results := p1.1 ++ p2.1
    (uids.map (fun u => lookupLast results u), p2.2)

/-- Throttled durable last-activity write of updatePresenceFromSocket:
UPDATE users SET last_activity_at = NOW() WHERE uid = $1 AND
(last_activity_at IS NULL OR NOW() - last_activity_at > 60 seconds);
returns the affected-row count and the new table state. -/
def dbTouchActivity (d : Db) (now : Nat) (uid : String) : Nat × Db :=
  let hit := fun (r : UserRow) =>
    r.uid == uid &&
      (match r.last_activity_at with
       | none => true
       | some t => 60 < now - t)
  ((d.users.filter hit).length,
   {d with users := d.users.map (fun r => if hit r then {r with last_activity_at := some now} else r)})

/-- Result of Users.updatePresenceFromSocket: the update result object on
success (its affected-row count), or the catch handler's {success:false,
error:message} object. -/
inductive HeartbeatResult
  | ok (rowCount : Nat)
  | failure
deriving DecidableEq

/-- Users.updatePresenceFromSocket (lines 379-428).  Order: validate,
refresh the presence summary key (value "1", presence TTL), run the
throttled durable last-activity write, delete the cud entry, return the
update result.  The durable write is fallible store I/O; its outcome is
injected through durableWriteFails.  When it throws, the single catch
handler captures the error and returns the failure object: the summary
refresh is not rolled back and the cud delete is skipped. -/
def updatePresenceFromSocket (st : State) (uid connId : String)
    (durableWriteFails : Bool) : HeartbeatResult × State :=
  let vUid := jsTrim uid
  let vConnId := jsTrim connId
  if vUid = "" ∨ vConnId = "" then (.failure, st)
  else
    let st1 : State := {st with redis := rset st.redis (keyPresenceSummary vUid) (.str "1")}
    if durableWriteFails then (.failure, st1)
    else
      let touched := dbTouchActivity st1.db st1.now vUid
      let st2 : State := {st1 with db := touched.2}
      let st3 : State := {st2 with redis := rdel st2.redis (keyCriticalUserData vUid)}
      (.ok touched.1, st3)

/-- Durable write of setPresenceOverride: UPDATE user_settings SET
presence_preference = $1, updated_at = NOW() WHERE uid = $2 RETURNING *;
yields rows[0] (none when no settings row matched) and the new table. -/
def dbSetPresencePref (d : Db) (mode uid : String) : Option SettingsRow × Db :=
  let updated := d.user_settings.map
    (fun r => if r.uid = uid then {r with presence_preference := some mode} else r)
  (updated.find? (fun r => r.uid == uid), {d with user_settings := updated})

/-- Result of Users.setPresenceOverride: the updated settings row on
success (result.rows[0] is what the method returns), or the catch
handler's {success:false, error:message} object. -/
inductive OverrideResult
  | ok (row : SettingsRow)
  | failure
deriving DecidableEq

/-- Users.setPresenceOverride (lines 436-473).  The rules object passed
to validateInputs checks only {type:"string", required, trim} for both
uid and mode: no membership test against PRESENCE_MODE is requested, so
any non-empty string mode passes validation.  The method then writes the
override key (no TTL), deletes the cud entry, and updates the durable
settings row; if no settings row matched it throws PERSISTENCE_FAILED,
which the catch turns into the failure object, with the two cache writes
already committed and not rolled back. -/
def setPresenceOverride (st : State) (uid mode : String) : OverrideResult × State :=
  let vUid := jsTrim uid
  let vMode := jsTrim mode
  if vUid = "" ∨ vMode = "" then (.failure, st)
  else
    let r1 := rset st.redis (keyPresenceOverride vUid) (.str vMode)
    let r2 := rdel r1 (keyCriticalUserData vUid)
    let st2 : State := {st with redis := r2}
    match dbSetPresencePref st2.db vMode vUid with
    | (some row, d2) => (.ok row, {st2 with db := d2})
    | (none, d2) => (.failure, {st2 with db := d2})

/-- Users.isUsernameTaken (lines 484-503).  Validation failure returns
true (catch), an invalid format returns true, and a throwing cache read
(injected through redisGetFails) lands in the catch handler which also
returns true; otherwise the result is the truthiness of the forward-map
value. -/
def isUsernameTaken (st : State) (username : String) (redisGetFails : Bool) : Bool :=
  let vUsername := jsTrim username
  if vUsername = "" then true
  else if !(isUsernameFormatValid vUsername) then true
  else if redisGetFails then true
  else rvalTruthy (rget st.redis (keyUsernameToUid vUsername))

/-- Durable write of setUsername: UPDATE users SET username_lower = $1,
updated_at = NOW() WHERE uid = $2 RETURNING *; the method logs the rows
but does not test the row count. -/
def dbSetUsernameLower (d : Db) (uid vUsername : String) : Db :=
  let updated := d.users.map
    (fun r => if r.uid = uid then {r with username_lower := vUsername} else r)
  {d with users := updated}

/-- Result of Users.setUsername: {success:true, previous} with previous
undefined when the mirror held nothing (or the empty string), or the
catch handler's {success:false, error:message} object. -/
inductive ClaimOutcome
  | ok (previous : Option String)
  | err (msg : String)
deriving DecidableEq

/-- Success path of Users.setUsername after the uniqueness gate
(lines 544-588): read the previous username from the mirror (empty string
is falsy, a JSON value never occurs at the mirror in the modelled scope),
write the forward and reverse entries, persist username_lower, patch the
cached bundle's username in place when a cud entry exists, and free the
old forward entry only when it still points to this uid. -/
def setUsernameCore (st : State) (vUid vUsername : String) : ClaimOutcome × State :=
  let oldUsername :=
    match rget st.redis (keyUidToUsername vUid) with
    | some (.str s) => if s = "" then none else some s
    | some (.bundle _) => none
    | none => none
  let r1 := rset st.redis (keyUsernameToUid vUsername) (.str vUid)
  let r2 := rset r1 (keyUidToUsername vUid) (.str vUsername)
  let st2 : State := {st with redis := r2, db := dbSetUsernameLower st.db vUid vUsername}
  let st3 : State :=
    match redisGetJson st2.redis (keyCriticalUserData vUid) with
    | some b =>
      let patched := rset st2.redis (keyCriticalUserData vUid) (.bundle {b with username := vUsername})
      {st2 with redis := patched}
    | none => st2
  let st4 : State :=
    match oldUsername with
    | some o =>
      if o ≠ vUsername then
        match rget st3.redis (keyUsernameToUid o) with
        | some (.str s) =>
          if s = vUid then {st3 with redis := rdel st3.redis (keyUsernameToUid o)} else st3
        | some (.bundle _) => st3
        | none => st3
      else st3
    | none => st3
  (.ok oldUsername, st4)

/-- Users.setUsername (lines 513-597).  Validation trims both arguments
and requires them non-empty; the username is normalized and
format-checked (terminal INVALID_USERNAME_FORMAT error); the uniqueness
gate reads the forward map and throws USERNAME_TAKEN when a truthy owner
differs from the uid, before any write; otherwise the success path of
setUsernameCore runs.  A JSON value at the forward key is nonempty text
that is no uid, hence a conflicting owner. -/
def setUsername (st : State) (uid username : String) : ClaimOutcome × State :=
  let vUid := jsTrim uid
  let vUsernameRaw := jsTrim username
  if vUid = "" ∨ vUsernameRaw = "" then (.err "VALIDATION_ERROR", st)
  else
    let vUsername := normalizeUsername vUsernameRaw
    if !(isUsernameFormatValid vUsername) then (.err "INVALID_USERNAME_FORMAT", st)
    else
      match rget st.redis (keyUsernameToUid vUsername) with
      | some (.str s) =>
        if s ≠ "" ∧ s ≠ vUid then (.err "USERNAME_TAKEN", st)
        else setUsernameCore st vUid vUsername
      | some (.bundle _) => (.err "USERNAME_TAKEN", st)
      | none => setUsernameCore st vUid vUsername

/-- Columns of the users table (db/createTable.js). -/
def usersTableCols : List String :=
  ["uid", "username_lower", "display_name", "avatar_url", "public_uid",
   "role", "is_new_user", "last_activity_at", "updated_at"]

/-- Columns of the user_settings table (db/createTable.js). -/
def userSettingsCols : List String :=
  ["uid", "locale", "notifications", "call_video_message",
   "presence_preference", "updated_at"]

/-- Apply SET field = value to a users row for the modelled columns; the
remaining schema columns exist but are outside the modelled projection. -/
def applyUsersField (r : UserRow) (field value : String) : UserRow :=
  if field = "username_lower" then {r with username_lower := value}
  else if field = "display_name" then {r with display_name := value}
  else if field = "avatar_url" then {r with avatar_url := value}
  else r

/-- Dynamic durable write of updateUserField: UPDATE {table} SET {field}
= $1, updated_at = NOW() WHERE uid = $2.  none models an SQL error: an
unknown relation, an unknown column, or the user_profiles table, whose
schema in db/createTable.js has no updated_at column, so the fixed SET
updated_at = NOW() clause fails on it.  some returns the affected-row
count and the new table state. -/
def dbUpdateField (d : Db) (table field value uid : String) : Option (Nat × Db) :=
  if table = "users" then
    if usersTableCols.contains field then
      let updated := d.users.map
        (fun r => if r.uid = uid then applyUsersField r field value else r)
      some ((d.users.filter (fun r => r.uid == uid)).length, {d with users := updated})
    else none
  else if table = "user_settings" then
    if userSettingsCols.contains field then
      let updated := d.user_settings.map
        (fun r =>
          if r.uid = uid then
            (if field = "presence_preference" then {r with presence_preference := some value} else r)
          else r)
      some ((d.user_settings.filter (fun r => r.uid == uid)).length,
        {d with user_settings := updated})
    else none
  else none

/-- Result of Users.updateUserField: {success:true} or the catch
handler's {success:false, error:message} object. -/
inductive FieldWriteResult
  | ok
  | failure
deriving DecidableEq

/-- Users.updateUserField (lines 665-729).  Validation trims the four
arguments and requires them non-empty, lowercasing table and field (the
validated value is not the one passed to the query: the original value
binds $1).  The dynamic UPDATE runs; an SQL error or a zero row count
lands in the catch handler.  No statement in the method touches the
cache tier. -/
def updateUserField (st : State) (uid tableName fieldKey value : String) :
    FieldWriteResult × State :=
  let vUid := jsTrim uid
  let vTable := jsLower (jsTrim tableName)
  let vField := jsLower (jsTrim fieldKey)
  if vUid = "" ∨ jsTrim tableName = "" ∨ jsTrim fieldKey = "" ∨ jsTrim value = "" then
    (.failure, st)
  else
    match dbUpdateField st.db vTable vField value vUid with
    | none => (.failure, st)
    | some (rc, d2) =>
      if rc = 0 then (.failure, {st with db := d2})
      else (.ok, {st with db := d2})

end Users

namespace Users

/-! Concrete states used by the closed theorems and witnesses. -/

/-- Durable tier holding only the seeded identity row of u1
(db/seedUser.js: alice / Alice Doe / /a.png). -/
def dbAlice : Db := ⟨[⟨"u1", "alice", "Alice Doe", "/a.png", none⟩], [], []⟩

/-- Cold state for the hydration scenario: empty cache, identity row
for u1, no settings row. -/
def stCold : State := ⟨[], dbAlice, 0⟩

/-- State with an identity row and a settings row for u1 and an empty
cache (the override scenarios need the settings row so that the durable
preference write finds a row). -/
def stWithSettings : State := ⟨[], ⟨[⟨"u1", "alice", "Alice Doe", "/a.png", none⟩], [⟨"u1", none⟩], []⟩, 0⟩

/-- State whose cache holds the away override for u1 and nothing else. -/
def stAwayOverride : State := ⟨[(keyPresenceOverride "u1", RVal.str "away")], ⟨[], [], []⟩, 0⟩

/-- Bundle cached for u1 in the field-update scenario. -/
def bundleAlice : Bundle := ⟨"alice", "Alice Doe", "/a.png", false, "offline"⟩

/-- State with a warm cud entry for u1 and the identity row. -/
def stWarmCud : State := ⟨[(keyCriticalUserData "u1", RVal.bundle bundleAlice)], dbAlice, 0⟩

/-- State whose forward map says alice is owned by u1, cache otherwise
empty. -/
def stAliceOwned : State := ⟨[(keyUsernameToUid "alice", RVal.str "u1")], ⟨[], [], []⟩, 0⟩

end Users

namespace Users

/-! Store and string lemmas shared by the claim theorems. -/

theorem rget_rset_self (r : List (String × RVal)) (k : String) (v : RVal) :
    rget (rset r k v) k = some v := by
  simp [rget, rset]

theorem rget_rset_ne (r : List (String × RVal)) (k k2 : String) (v : RVal)
    (h : k2 ≠ k) : rget (rset r k v) k2 = rget r k2 := by
  simp [rget, rset, Ne.symm h]

theorem rget_rdel_ne (r : List (String × RVal)) (k k2 : String) (h : k2 ≠ k) :
    rget (rdel r k) k2 = rget r k2 := by
  induction r with
  | nil => rfl
  | cons p rest ih =>
    by_cases hp : p.1 = k
    · have hp2 : p.1 ≠ k2 := by
        rw [hp]; exact Ne.symm h
      simp [rdel, rget, hp, hp2, ih, Ne.symm h]
    · simp [rdel, rget, hp, ih]

theorem strDataAppend (a b : String) : (a ++ b).data = a.data ++ b.data := by
  cases a; cases b; rfl

theorem appendNeOfIdx (p1 p2 : String) (i : Nat) (h1 : i < p1.data.length)
    (h2 : i < p2.data.length) (hne : p1.data[i]? ≠ p2.data[i]?) (a b : String) :
    p1 ++ a ≠ p2 ++ b := by
  intro h
  apply hne
  have hd := congrArg String.data h
  rw [strDataAppend, strDataAppend] at hd
  calc p1.data[i]? = (p1.data ++ a.data)[i]? := (List.getElem?_append_left h1).symm
    _ = (p2.data ++ b.data)[i]? := by rw [hd]
    _ = p2.data[i]? := List.getElem?_append_left h2

theorem appendLeftCancel (p a b : String) (h : p ++ a = p ++ b) : a = b := by
  have hd := congrArg String.data h
  rw [strDataAppend, strDataAppend] at hd
  exact String.ext (List.append_cancel_left hd)

theorem keyFwd_ne_keyRev (a b : String) : keyUsernameToUid a ≠ keyUidToUsername b := by
  show "username:to:uid:" ++ normalizeUsername a ≠ "uid:to:username:" ++ b
  exact appendNeOfIdx _ _ 1 (by decide) (by decide) (by decide) _ _

theorem keyCud_ne_keyFwd (a b : String) : keyCriticalUserData a ≠ keyUsernameToUid b := by
  show "cud:" ++ a ≠ "username:to:uid:" ++ normalizeUsername b
  exact appendNeOfIdx _ _ 0 (by decide) (by decide) (by decide) _ _

theorem keyCud_ne_keyRev (a b : String) : keyCriticalUserData a ≠ keyUidToUsername b := by
  show "cud:" ++ a ≠ "uid:to:username:" ++ b
  exact appendNeOfIdx _ _ 0 (by decide) (by decide) (by decide) _ _

theorem keyCud_ne_keySummary (a b : String) : keyCriticalUserData a ≠ keyPresenceSummary b := by
  show "cud:" ++ a ≠ "presence:summary:user:" ++ b
  exact appendNeOfIdx _ _ 0 (by decide) (by decide) (by decide) _ _

theorem keyFwd_ne_of_ne (a b : String) (ha : normalizeUsername a = a)
    (hb : normalizeUsername b = b) (h : a ≠ b) :
    keyUsernameToUid a ≠ keyUsernameToUid b := by
  intro hc
  apply h
  have hc2 : "username:to:uid:" ++ normalizeUsername a
      = "username:to:uid:" ++ normalizeUsername b := hc
  rw [ha, hb] at hc2
  exact appendLeftCancel _ _ _ hc2

end Users

namespace Users

/-- C1: for an identifier with no cache entries, no presence signals and a
durable identity row, getCriticalUserData is claimed to return the
offline bundle and to warm the cud cache key.  The code instead reaches
the bare redisSetJson identifier (Users.js line 203), throws a
ReferenceError, and the catch handler returns the error object
{status:false, data:null, error:message}: the call returns no bundle and
the cache key is still empty afterwards, so the immediately following
call would miss again. -/
theorem c1_cold_hydrate_returns_error_and_writes_nothing :
    getCriticalUserData stCold "u1" = (CudResult.errorResult, stCold) ∧
    rget (getCriticalUserData stCold "u1").2.redis (keyCriticalUserData "u1") = none := by
  constructor
  · decide
  · decide

/-- C2: setPresenceOverride of mode away succeeds against a state with a
settings row for u1 (it returns the updated settings row), and the state
afterwards holds the override key with value away; yet getOnlineStatus
still answers {online:false, status:"offline"}, because its body throws a
ReferenceError at the bare validateInputs identifier (Users.js line 299)
and the catch handler returns offline unconditionally.  The claimed
result {online:true, status:"away"} is not produced. -/
theorem c2_away_override_then_single_status_still_offline :
    (setPresenceOverride stWithSettings "u1" "away").1
      = OverrideResult.ok ⟨"u1", some "away"⟩ ∧
    rget (setPresenceOverride stWithSettings "u1" "away").2.redis
      (keyPresenceOverride "u1") = some (RVal.str "away") ∧
    getOnlineStatus (setPresenceOverride stWithSettings "u1" "away").2 "u1"
      = ⟨false, "offline"⟩ := by
  refine ⟨by decide, by decide, by decide⟩

/-- C3: setPresenceOverride with the mode weirdmode, outside
{real, away, offline}, is claimed to be rejected before any store is
touched.  The rules object passed to validateInputs requests no
membership check, so the call instead writes the override key with value
weirdmode, performs the durable settings write, and returns the updated
row as a success. -/
theorem c3_invalid_mode_written_to_store :
    (setPresenceOverride stWithSettings "u1" "weirdmode").1
      = OverrideResult.ok ⟨"u1", some "weirdmode"⟩ ∧
    rget (setPresenceOverride stWithSettings "u1" "weirdmode").2.redis
      (keyPresenceOverride "u1") = some (RVal.str "weirdmode") := by
  refine ⟨by decide, by decide⟩

/-- C7: presence resolution precedence at the failing input.  With the
override key for u1 holding away, the batch path answers online+away as
the precedence demands, but the single-item getOnlineStatus answers
offline (its body dies on the bare validateInputs identifier, Users.js
line 299), contradicting the claimed override precedence for the
single-item operation. -/
theorem c7_single_resolver_ignores_away_override :
    getOnlineStatus stAwayOverride "u1" = ⟨false, "offline"⟩ ∧
    getBatchOnlineStatus stAwayOverride ["u1"]
      = BatchPresenceResult.rows [⟨"u1", true, "away"⟩] ∧
    rget stAwayOverride.redis (keyPresenceOverride "u1") = some (RVal.str "away") := by
  refine ⟨by decide, by decide, by decide⟩

/-- C10: when the cache-tier read inside isUsernameTaken throws, the
catch handler reports the name as taken: for every state and every
username the call with a failing store read returns true, never free. -/
theorem c10_store_error_reports_taken (st : State) (username : String) :
    isUsernameTaken st username true = true := by
  unfold isUsernameTaken
  split
  · simp
  · simp_all

/-- C4, amended: updateUserField performs only the durable update and
never touches the cache tier, so the bundle cache entry cud:{uid} is left
in place for every input and every state; invalidation is left to the
caller. -/
theorem c4_update_field_leaves_cache_untouched
    (st : State) (uid tableName fieldKey value : String) :
    (updateUserField st uid tableName fieldKey value).2.redis = st.redis := by
  unfold updateUserField
  dsimp only
  split
  · rfl
  · split
    · rfl
    · split <;> rfl

/-- C4, counterexample to the claim as stated: with a warm cud entry for
u1 and its identity row, updateUserField on the bundle-visible column
display_name returns success, and the cud:u1 cache entry is still present
(unchanged) after the call, so no synchronous bundle-cache invalidation
happened before success was returned. -/
theorem c4_counterexample_success_with_cache_entry_left :
    (updateUserField stWarmCud "u1" "users" "display_name" "Alice Prime").1
      = FieldWriteResult.ok ∧
    rget (updateUserField stWarmCud "u1" "users" "display_name" "Alice Prime").2.redis
      (keyCriticalUserData "u1") = some (RVal.bundle bundleAlice) := by
  refine ⟨by decide, by decide⟩

/-- C5, amended: when the throttled durable last-activity write inside
updatePresenceFromSocket fails after the presence summary key was
refreshed, the call does not throw: the error is captured and the method
returns the structured failure object {success:false, error} to the
caller; the summary refresh is not rolled back, the cud delete that
follows the durable write is skipped, and the durable tier is unchanged. -/
theorem c5_durable_failure_returned_as_structured_failure
    (st : State) (uid connId : String)
    (h1 : jsTrim uid ≠ "") (h2 : jsTrim connId ≠ "") :
    (updatePresenceFromSocket st uid connId true).1 = HeartbeatResult.failure ∧
    rget (updatePresenceFromSocket st uid connId true).2.redis
      (keyPresenceSummary (jsTrim uid)) = some (RVal.str "1") ∧
    rget (updatePresenceFromSocket st uid connId true).2.redis
      (keyCriticalUserData (jsTrim uid))
      = rget st.redis (keyCriticalUserData (jsTrim uid)) ∧
    (updatePresenceFromSocket st uid connId true).2.db = st.db := by
  unfold updatePresenceFromSocket
  rw [if_neg (by exact fun hc => hc.elim h1 h2)]
  dsimp only
  refine ⟨rfl, rget_rset_self _ _ _, ?_, rfl⟩
  exact rget_rset_ne _ _ _ _ (keyCud_ne_keySummary _ _)

/-- Witness for the C5 theorem at a concrete input. -/
theorem c5_witness :
    (updatePresenceFromSocket stCold "u1" "conn-1" true).1 = HeartbeatResult.failure ∧
    rget (updatePresenceFromSocket stCold "u1" "conn-1" true).2.redis
      (keyPresenceSummary (jsTrim "u1")) = some (RVal.str "1") ∧
    rget (updatePresenceFromSocket stCold "u1" "conn-1" true).2.redis
      (keyCriticalUserData (jsTrim "u1"))
      = rget stCold.redis (keyCriticalUserData (jsTrim "u1")) ∧
    (updatePresenceFromSocket stCold "u1" "conn-1" true).2.db = stCold.db :=
  c5_durable_failure_returned_as_structured_failure stCold "u1" "conn-1"
    (by decide) (by decide)

/-- C5, counterexample to the claim as stated: at a concrete input whose
throttled durable write fails after the summary refresh, the method's
return value is the failure object, i.e. the durable failure is reported
to the caller rather than swallowed. -/
theorem c5_counterexample_failure_is_reported :
    (updatePresenceFromSocket stWithSettings "u1" "conn-1" true).1
      = HeartbeatResult.failure := by
  decide

end Users

namespace Users

/-- C6: when the forward map entry for a valid username u points to id1
and a different valid identifier id2 tries to claim u, setUsername fails
with the USERNAME_TAKEN conflict thrown before any write: the result is
the structured conflict error and the state is returned unchanged, so in
particular no forward and no reverse mapping moved.  The username is
taken in canonical form (trimmed, lowercase), the form the registry
itself stores. -/
theorem c6_conflicting_claim_changes_nothing
    (st : State) (id1 id2 u : String)
    (hu1 : jsTrim u = u) (hu2 : jsLower u = u)
    (hfmt : isUsernameFormatValid u = true)
    (hida : jsTrim id2 = id2) (hidb : id2 ≠ "")
    (howner : rget st.redis (keyUsernameToUid u) = some (RVal.str id1))
    (h1 : id1 ≠ "") (h2 : id1 ≠ id2) :
    setUsername st id2 u = (ClaimOutcome.err "USERNAME_TAKEN", st) := by
  have hnorm : normalizeUsername u = u := by
    unfold normalizeUsername
    rw [hu1, hu2]
  have hue : u ≠ "" := by
    intro hc
    rw [hc] at hfmt
    exact absurd hfmt (by decide)
  simp only [setUsername, hida, hu1, hnorm, hfmt, hidb, hue, howner]
  simp [h1, h2]

/-- Witness for the C6 theorem: alice is owned by u1, u2 tries to claim
it, the call fails with the conflict and the state is unchanged. -/
theorem c6_witness :
    setUsername stAliceOwned "u2" "alice" = (ClaimOutcome.err "USERNAME_TAKEN", stAliceOwned) :=
  c6_conflicting_claim_changes_nothing stAliceOwned "u1" "u2" "alice"
    (by decide) (by decide) (by decide) (by decide) (by decide)
    (by decide) (by decide) (by decide)

end Users

namespace Users

theorem spreadRow_uid (uid : String) (res : CudResult) : (spreadRow uid res).uid = uid := by
  cases res <;> rfl

theorem presenceRowOf_uid (st : State) (uid : String) : (presenceRowOf st uid).uid = uid := by
  unfold presenceRowOf
  split
  · rfl
  · split
    · rfl
    · split
      · rfl
      · rfl

theorem cudPhase1_covers (st : State) (uids : List String) (u : String) (hu : u ∈ uids) :
    (∃ r, r ∈ (cudPhase1 st uids).1 ∧ r.uid = u) ∨ u ∈ (cudPhase1 st uids).2 := by
  induction uids with
  | nil => cases hu
  | cons x rest ih =>
    rcases List.mem_cons.mp hu with rfl | hmem
    · rcases hx : rget st.redis (keyCriticalUserData u) with _ | v
      · right
        simp [cudPhase1, hx]
      · rcases v with s | b
        · right
          simp [cudPhase1, hx]
        · left
          exact ⟨⟨u, .cached b⟩, by simp [cudPhase1, hx], rfl⟩
    · rcases ih hmem with ⟨r, hr, he⟩ | hm
      · left
        refine ⟨r, ?_, he⟩
        rcases hx : rget st.redis (keyCriticalUserData x) with _ | v
        · simpa [cudPhase1, hx] using hr
        · rcases v with s | b
          · simpa [cudPhase1, hx] using hr
          · simp [cudPhase1, hx]
            right
            exact hr
      · right
        rcases hx : rget st.redis (keyCriticalUserData x) with _ | v
        · simp [cudPhase1, hx]
          right
          exact hm
        · rcases v with s | b
          · simp [cudPhase1, hx]
            right
            exact hm
          · simpa [cudPhase1, hx] using hm

theorem cudPhase2_covers (misses : List String) : ∀ (st : State) (u : String),
    u ∈ misses → ∃ r, r ∈ (cudPhase2 st misses).1 ∧ r.uid = u := by
  induction misses with
  | nil =>
    intro st u hu
    cases hu
  | cons x rest ih =>
    intro st u hu
    rcases List.mem_cons.mp hu with rfl | hmem
    · exact ⟨spreadRow u (getCriticalUserData st u).1, by simp [cudPhase2], spreadRow_uid _ _⟩
    · obtain ⟨r, hr, he⟩ := ih (getCriticalUserData st x).2 u hmem
      refine ⟨r, ?_, he⟩
      simp [cudPhase2]
      right
      exact hr

theorem lookupLast_uid (rows : List BatchCudRow) (u : String) (x : BatchCudRow)
    (h : lookupLast rows u = some x) : x.uid = u := by
  induction rows with
  | nil => simp [lookupLast] at h
  | cons r rest ih =>
    unfold lookupLast at h
    rcases hrec : lookupLast rest u with _ | y
    · rw [hrec] at h
      dsimp at h
      split at h
      · cases h
        assumption
      · cases h
    · rw [hrec] at h
      dsimp at h
      cases h
      exact ih hrec

theorem lookupLast_isSome (rows : List BatchCudRow) (u : String)
    (h : ∃ r, r ∈ rows ∧ r.uid = u) : ∃ x, lookupLast rows u = some x := by
  induction rows with
  | nil =>
    rcases h with ⟨r, hr, _⟩
    cases hr
  | cons hd rest ih =>
    rcases h with ⟨r, hr, he⟩
    rcases List.mem_cons.mp hr with rfl | hmem
    · subst he
      rcases hrec : lookupLast rest r.uid with _ | y
      · exact ⟨r, by simp [lookupLast, hrec]⟩
      · exact ⟨y, by simp [lookupLast, hrec]⟩
    · obtain ⟨x, hx⟩ := ih ⟨r, hmem, he⟩
      exact ⟨x, by simp [lookupLast, hx]⟩

end Users

namespace Users

/-- C8: both batch operations are shape-preserving on every non-empty
input within their batch limits (500 for presence, 200 for bundles): the
output list has the same length as the input list and its i-th element
carries the i-th input identifier, for unknown identifiers (which get an
offline row or the empty-shaped or error-shaped payload rather than
being dropped) and for duplicated identifiers (each occurrence receives
a result, the Map lookup serving the last computed row for that
identifier). -/
theorem c8_batch_results_align_with_input (st : State) (uids : List String) :
    (1 ≤ uids.length → uids.length ≤ 500 →
      ∃ rows, getBatchOnlineStatus st uids = BatchPresenceResult.rows rows ∧
        rows.length = uids.length ∧
        ∀ i : Nat, ∀ h : i < uids.length, ∃ pr : PresenceRow,
          rows[i]? = some pr ∧ pr.uid = uids.get ⟨i, h⟩) ∧
    (1 ≤ uids.length → uids.length ≤ 200 →
      (getCriticalUsersData st uids).1.length = uids.length ∧
      ∀ i : Nat, ∀ h : i < uids.length, ∃ r : BatchCudRow,
        ((getCriticalUsersData st uids).1)[i]? = some (some r) ∧
          r.uid = uids.get ⟨i, h⟩) := by
  constructor
  · intro h1 h2
    refine ⟨uids.map (fun u => presenceRowOf st u), ?_, by simp, ?_⟩
    · unfold getBatchOnlineStatus
      rw [if_neg (by omega)]
    · intro i h
      refine ⟨presenceRowOf st (uids.get ⟨i, h⟩), ?_, presenceRowOf_uid _ _⟩
      rw [List.getElem?_map, List.getElem?_eq_getElem h]
      rfl
  · intro h1 h2
    have hout : (getCriticalUsersData st uids).1
        = uids.map (fun u =>
            lookupLast ((cudPhase1 st uids).1 ++ (cudPhase2 st (cudPhase1 st uids).2).1) u) := by
      unfold getCriticalUsersData
      rw [if_neg (by omega)]
    constructor
    · rw [hout]
      simp
    · intro i h
      have humem : uids.get ⟨i, h⟩ ∈ uids := uids.get_mem _ _
      have hcov : ∃ r, r ∈ (cudPhase1 st uids).1 ++ (cudPhase2 st (cudPhase1 st uids).2).1
          ∧ r.uid = uids.get ⟨i, h⟩ := by
        rcases cudPhase1_covers st uids _ humem with ⟨r, hr, he⟩ | hmiss
        · exact ⟨r, List.mem_append_left _ hr, he⟩
        · obtain ⟨r, hr, he⟩ := cudPhase2_covers (cudPhase1 st uids).2 st _ hmiss
          exact ⟨r, List.mem_append_right _ hr, he⟩
      obtain ⟨x, hx⟩ := lookupLast_isSome _ _ hcov
      refine ⟨x, ?_, lookupLast_uid _ _ _ hx⟩
      rw [hout, List.getElem?_map, List.getElem?_eq_getElem h]
      simp only [Option.map_some']
      exact congrArg some hx

end Users

namespace Users

theorem setUsernameCore_facts (st : State) (vUid vU : String)
    (hnorm : normalizeUsername vU = vU)
    (hrev : ∀ o, rget st.redis (keyUidToUsername vUid) = some (RVal.str o) →
      normalizeUsername o = o) :
    (∃ prev, (setUsernameCore st vUid vU).1 = ClaimOutcome.ok prev) ∧
    rget (setUsernameCore st vUid vU).2.redis (keyUsernameToUid vU) = some (RVal.str vUid) ∧
    rget (setUsernameCore st vUid vU).2.redis (keyUidToUsername vUid) = some (RVal.str vU) := by
  have hFR : keyUsernameToUid vU ≠ keyUidToUsername vUid := keyFwd_ne_keyRev _ _
  have hCF : keyUsernameToUid vU ≠ keyCriticalUserData vUid :=
    Ne.symm (keyCud_ne_keyFwd _ _)
  have hCR : keyUidToUsername vUid ≠ keyCriticalUserData vUid :=
    Ne.symm (keyCud_ne_keyRev _ _)
  have hbaseF : rget (rset (rset st.redis (keyUsernameToUid vU) (RVal.str vUid))
      (keyUidToUsername vUid) (RVal.str vU)) (keyUsernameToUid vU) = some (RVal.str vUid) := by
    rw [rget_rset_ne _ _ _ _ hFR, rget_rset_self]
  have hbaseR : rget (rset (rset st.redis (keyUsernameToUid vU) (RVal.str vUid))
      (keyUidToUsername vUid) (RVal.str vU)) (keyUidToUsername vUid) = some (RVal.str vU) := by
    rw [rget_rset_self]
  rcases hOld : rget st.redis (keyUidToUsername vUid) with _ | v
  · rcases hCud : redisGetJson (rset (rset st.redis (keyUsernameToUid vU) (RVal.str vUid))
        (keyUidToUsername vUid) (RVal.str vU)) (keyCriticalUserData vUid) with _ | b
    · simp only [setUsernameCore, hOld, hCud]
      exact ⟨⟨none, rfl⟩, hbaseF, hbaseR⟩
    · simp only [setUsernameCore, hOld, hCud]
      refine ⟨⟨none, rfl⟩, ?_, ?_⟩
      · rw [rget_rset_ne _ _ _ _ hCF]
        exact hbaseF
      · rw [rget_rset_ne _ _ _ _ hCR]
        exact hbaseR
  · rcases v with s | b
    · -- mirror holds the plain string s
      have hos : normalizeUsername s = s := hrev s hOld
      by_cases hs : s = ""
      · rcases hCud : redisGetJson (rset (rset st.redis (keyUsernameToUid vU) (RVal.str vUid))
            (keyUidToUsername vUid) (RVal.str vU)) (keyCriticalUserData vUid) with _ | b
        · simp only [setUsernameCore, hOld, hCud, if_pos hs]
          exact ⟨⟨none, rfl⟩, hbaseF, hbaseR⟩
        · simp only [setUsernameCore, hOld, hCud, if_pos hs]
          refine ⟨⟨none, rfl⟩, ?_, ?_⟩
          · rw [rget_rset_ne _ _ _ _ hCF]
            exact hbaseF
          · rw [rget_rset_ne _ _ _ _ hCR]
            exact hbaseR
      · by_cases hsv : s = vU
        · subst hsv
          rcases hCud : redisGetJson (rset (rset st.redis (keyUsernameToUid s) (RVal.str vUid))
              (keyUidToUsername vUid) (RVal.str s)) (keyCriticalUserData vUid) with _ | b
          · simp only [setUsernameCore, hOld, hCud, if_neg hs,
              if_neg (show ¬(s ≠ s) by simp)]
            exact ⟨⟨some s, rfl⟩, hbaseF, hbaseR⟩
          · simp only [setUsernameCore, hOld, hCud, if_neg hs,
              if_neg (show ¬(s ≠ s) by simp)]
            refine ⟨⟨some s, rfl⟩, ?_, ?_⟩
            · rw [rget_rset_ne _ _ _ _ hCF]
              exact hbaseF
            · rw [rget_rset_ne _ _ _ _ hCR]
              exact hbaseR
        · have hFK : keyUsernameToUid vU ≠ keyUsernameToUid s :=
            Ne.symm (keyFwd_ne_of_ne s vU hos hnorm hsv)
          have hRK : keyUidToUsername vUid ≠ keyUsernameToUid s :=
            Ne.symm (keyFwd_ne_keyRev s vUid)
          rcases hCud : redisGetJson (rset (rset st.redis (keyUsernameToUid vU) (RVal.str vUid))
              (keyUidToUsername vUid) (RVal.str vU)) (keyCriticalUserData vUid) with _ | b
          · simp only [setUsernameCore, hOld, hCud, if_neg hs, if_pos hsv]
            refine ⟨⟨some s, rfl⟩, ?_, ?_⟩
            · split
              · split
                · dsimp only
                  rw [rget_rdel_ne _ _ _ hFK]
                  exact hbaseF
                · dsimp only
                  exact hbaseF
              · dsimp only
                exact hbaseF
              · dsimp only
                exact hbaseF
            · split
              · split
                · dsimp only
                  rw [rget_rdel_ne _ _ _ hRK]
                  exact hbaseR
                · dsimp only
                  exact hbaseR
              · dsimp only
                exact hbaseR
              · dsimp only
                exact hbaseR
          · have hF3 : rget (rset (rset (rset st.redis (keyUsernameToUid vU) (RVal.str vUid))
                (keyUidToUsername vUid) (RVal.str vU)) (keyCriticalUserData vUid)
                (RVal.bundle {b with username := vU})) (keyUsernameToUid vU)
                = some (RVal.str vUid) := by
              rw [rget_rset_ne _ _ _ _ hCF]
              exact hbaseF
            have hR3 : rget (rset (rset (rset st.redis (keyUsernameToUid vU) (RVal.str vUid))
                (keyUidToUsername vUid) (RVal.str vU)) (keyCriticalUserData vUid)
                (RVal.bundle {b with username := vU})) (keyUidToUsername vUid)
                = some (RVal.str vU) := by
              rw [rget_rset_ne _ _ _ _ hCR]
              exact hbaseR
            simp only [setUsernameCore, hOld, hCud, if_neg hs, if_pos hsv]
            refine ⟨⟨some s, rfl⟩, ?_, ?_⟩
            · split
              · split
                · dsimp only
                  rw [rget_rdel_ne _ _ _ hFK]
                  exact hF3
                · dsimp only
                  exact hF3
              · dsimp only
                exact hF3
              · dsimp only
                exact hF3
            · split
              · split
                · dsimp only
                  rw [rget_rdel_ne _ _ _ hRK]
                  exact hR3
                · dsimp only
                  exact hR3
              · dsimp only
                exact hR3
              · dsimp only
                exact hR3
    · -- mirror holds JSON text: previous username resolves to none
      rcases hCud : redisGetJson (rset (rset st.redis (keyUsernameToUid vU) (RVal.str vUid))
          (keyUidToUsername vUid) (RVal.str vU)) (keyCriticalUserData vUid) with _ | b2
      · simp only [setUsernameCore, hOld, hCud]
        exact ⟨⟨none, rfl⟩, hbaseF, hbaseR⟩
      · simp only [setUsernameCore, hOld, hCud]
        refine ⟨⟨none, rfl⟩, ?_, ?_⟩
        · rw [rget_rset_ne _ _ _ _ hCF]
          exact hbaseF
        · rw [rget_rset_ne _ _ _ _ hCR]
          exact hbaseR

end Users

namespace Users

/-- C9: claiming the same (id, u) pair twice in a row with no other actor
succeeds both times and converges: after each call the forward entry
maps u to id and the reverse entry maps id to u, so the second call
leaves the registry exactly where the first call left it.  Hypotheses:
id and u are in canonical form, u passes the format policy, the forward
entry for u is free or already owned by id, and the reverse mirror of id
holds a normalized name when it holds anything (the only values the
registry itself ever writes there). -/
theorem c9_claim_idempotent (st : State) (id u : String)
    (hid : jsTrim id = id) (hidne : id ≠ "")
    (hu1 : jsTrim u = u) (hu2 : jsLower u = u)
    (hfmt : isUsernameFormatValid u = true)
    (howner : rget st.redis (keyUsernameToUid u) = none ∨
      rget st.redis (keyUsernameToUid u) = some (RVal.str id))
    (hrev : ∀ o, rget st.redis (keyUidToUsername id) = some (RVal.str o) →
      normalizeUsername o = o) :
    (∃ p1, (setUsername st id u).1 = ClaimOutcome.ok p1) ∧
    (∃ p2, (setUsername (setUsername st id u).2 id u).1 = ClaimOutcome.ok p2) ∧
    rget (setUsername st id u).2.redis (keyUsernameToUid u) = some (RVal.str id) ∧
    rget (setUsername st id u).2.redis (keyUidToUsername id) = some (RVal.str u) ∧
    rget (setUsername (setUsername st id u).2 id u).2.redis (keyUsernameToUid u)
      = some (RVal.str id) ∧
    rget (setUsername (setUsername st id u).2 id u).2.redis (keyUidToUsername id)
      = some (RVal.str u) := by
  have hnorm : normalizeUsername u = u := by
    unfold normalizeUsername
    rw [hu1, hu2]
  have hune : u ≠ "" := by
    intro hc
    rw [hc] at hfmt
    exact absurd hfmt (by decide)
  obtain ⟨⟨p1, hp1⟩, hF1, hR1⟩ := setUsernameCore_facts st id u hnorm hrev
  have hrev2 : ∀ o, rget (setUsernameCore st id u).2.redis (keyUidToUsername id)
      = some (RVal.str o) → normalizeUsername o = o := by
    intro o ho
    rw [hR1] at ho
    have huo : u = o := by
      injection ho with h2
      injection h2
    rw [← huo]
    exact hnorm
  obtain ⟨⟨p2, hp2⟩, hF2, hR2⟩ :=
    setUsernameCore_facts (setUsernameCore st id u).2 id u hnorm hrev2
  have hred1 : setUsername st id u = setUsernameCore st id u := by
    rcases howner with h | h
    · simp [setUsername, hid, hu1, hnorm, hfmt, h, hidne, hune]
    · simp [setUsername, hid, hu1, hnorm, hfmt, h, hidne, hune]
  have hred2 : setUsername (setUsernameCore st id u).2 id u
      = setUsernameCore (setUsernameCore st id u).2 id u := by
    simp [setUsername, hid, hu1, hnorm, hfmt, hF1, hidne, hune]
  refine ⟨⟨p1, ?_⟩, ⟨p2, ?_⟩, ?_, ?_, ?_, ?_⟩
  · rw [hred1, hp1]
  · rw [hred1, hred2, hp2]
  · rw [hred1]
    exact hF1
  · rw [hred1]
    exact hR1
  · rw [hred1, hred2]
    exact hF2
  · rw [hred1, hred2]
    exact hR2

/-- Witness for the C9 theorem: u1 claims alice twice starting from the
cold state; both calls succeed and both leave alice mapped to u1 and u1
mirrored to alice. -/
theorem c9_witness :
    (∃ p1, (setUsername stCold "u1" "alice").1 = ClaimOutcome.ok p1) ∧
    (∃ p2, (setUsername (setUsername stCold "u1" "alice").2 "u1" "alice").1
      = ClaimOutcome.ok p2) ∧
    rget (setUsername stCold "u1" "alice").2.redis (keyUsernameToUid "alice")
      = some (RVal.str "u1") ∧
    rget (setUsername stCold "u1" "alice").2.redis (keyUidToUsername "u1")
      = some (RVal.str "alice") ∧
    rget (setUsername (setUsername stCold "u1" "alice").2 "u1" "alice").2.redis
      (keyUsernameToUid "alice") = some (RVal.str "u1") ∧
    rget (setUsername (setUsername stCold "u1" "alice").2 "u1" "alice").2.redis
      (keyUidToUsername "u1") = some (RVal.str "alice") :=
  c9_claim_idempotent stCold "u1" "alice" (by decide) (by decide) (by decide)
    (by decide) (by decide) (Or.inl (by decide))
    (by
      intro o ho
      rw [show rget stCold.redis (keyUidToUsername "u1") = none from by decide] at ho
      exact Option.noConfusion ho)

/-- Witness for the C8 theorem on a batch with a duplicate and an unknown
identifier against the warm-cache state. -/
theorem c8_witness :
    (∃ rows, getBatchOnlineStatus stWarmCud ["u1", "u1", "zz"]
        = BatchPresenceResult.rows rows ∧
      rows.length = (["u1", "u1", "zz"] : List String).length ∧
      ∀ i : Nat, ∀ h : i < (["u1", "u1", "zz"] : List String).length,
        ∃ pr : PresenceRow, rows[i]? = some pr ∧
          pr.uid = (["u1", "u1", "zz"] : List String).get ⟨i, h⟩) ∧
    ((getCriticalUsersData stWarmCud ["u1", "u1", "zz"]).1.length
        = (["u1", "u1", "zz"] : List String).length ∧
      ∀ i : Nat, ∀ h : i < (["u1", "u1", "zz"] : List String).length,
        ∃ r : BatchCudRow,
          ((getCriticalUsersData stWarmCud ["u1", "u1", "zz"]).1)[i]? = some (some r) ∧
            r.uid = (["u1", "u1", "zz"] : List String).get ⟨i, h⟩) :=
  ⟨(c8_batch_results_align_with_input stWarmCud ["u1", "u1", "zz"]).1
      (by decide) (by decide),
   (c8_batch_results_align_with_input stWarmCud ["u1", "u1", "zz"]).2
      (by decide) (by decide)⟩

end Users
